import Mathlib

/-!
# Verification of the FLAME regulatory-feed ingestion and FT3 auto-mapper

A shallow embedding, in Lean 4, of the decision logic of the `flame-fraud`
repository:

* `scripts/regulatory/base.py` — the `RegulatorySource` adapter contract
  (`fetch`/`parse`/`run`, `map_category_to_tps`);
* `scripts/regulatory/models.py` — the `RegulatoryAlert` record and its
  CSV row serialization;
* `scripts/regulatory/sources/{cfpb,occ,sec,ofac,fincen,fbi_ic3}.py` — the
  six concrete source adapters;
* `scripts/fetch_regulatory_data.py` — `write_csv`;
* `scripts/ft3_mapper.py` — the multi-signal FT3 mapping engine
  (`map_cfpf_to_tactics`, `map_groupib_to_tactics`,
  `map_fraud_types_to_techniques`, the technique filter of `map_single_tp`,
  `determine_confidence`, `apply_ft3_tactics`).

Python strings are modelled by Lean `String`; the Python string methods used
by the code (`lower`, `strip`, slicing, `in`, `startswith`, …) are modelled
by executable char-list functions below, so that every definition evaluates
inside the kernel (`decide`/`rfl`).  Python `float` scores in the mapper are
sums of the literal increments `3.0` and `1.0`, hence exact small integers;
they are modelled by `Nat`, and the `>= 4.0` threshold by `4 ≤ ·`.
Python `dict`s that the code only reads with `.get` are modelled by
association lists; Python `set`s by duplicate-free accumulation into lists
(only membership and truthiness of the sets are ever consumed).

The HTML/XML/feed *front ends* (BeautifulSoup, `xml.etree`, `pdfplumber`)
are external libraries: each adapter's raw input is modelled by the
structural items that front end hands to the adapter's own loop, together
with the distinguished empty/falsy raw value that the adapters guard
against (`if not raw_data: return []`), and — for the XML source — the fact
that `xml.etree.ElementTree.fromstring` raises `ParseError` ("no element
found") on empty input.
-/

/-! ## Char-list models of the Python string methods -/

/-- Python `str.lower` on one character (the sources only lower-case ASCII). -/
def charLower (c : Char) : Char :=
  if 'A' ≤ c && c ≤ 'Z' then Char.ofNat (c.toNat + 32) else c

/-- Python `str.upper` on one character. -/
def charUpper (c : Char) : Char :=
  if 'a' ≤ c && c ≤ 'z' then Char.ofNat (c.toNat - 32) else c

/-- Python `str.lower()`. -/
def pyLower (s : String) : String := String.mk (s.data.map charLower)

/-- Python `str.upper()`. -/
def pyUpper (s : String) : String := String.mk (s.data.map charUpper)

/-- Python whitespace (the characters stripped by `str.strip()`). -/
def isPyWS (c : Char) : Bool :=
  c = ' ' || c = '\t' || c = '\n' || c = '\r' || c = '\x0b' || c = '\x0c'

/-- Python `str.strip()`: drop whitespace from both ends. -/
def pyStrip (s : String) : String :=
  String.mk (((s.data.dropWhile isPyWS).reverse.dropWhile isPyWS).reverse)

/-- Python slicing `s[:n]` (by characters). -/
def pyTake (s : String) (n : Nat) : String := String.mk (s.data.take n)

/-- Python `sub in hay` on char lists: `needle` occurs contiguously in the list. -/
def listInfix (needle : List Char) : List Char → Bool
  | [] => needle.isEmpty
  | c :: t => needle.isPrefixOf (c :: t) || listInfix needle t

/-- Python `sub in hay` for strings. -/
def pyContains (hay sub : String) : Bool := listInfix sub.data hay.data

/-- Python `s.startswith(p)`. -/
def pyStartsWith (s p : String) : Bool := p.data.isPrefixOf s.data

/-- Python `s.endswith(p)`. -/
def pyEndsWith (s p : String) : Bool := p.data.isSuffixOf s.data

/-- Python `f"{n:04d}"`: decimal, left-padded with zeros to width 4. -/
def pad4 (n : Nat) : String :=
  let s := toString n
  String.mk (List.replicate (4 - s.length) '0' ++ s.data)

/-- Python `s.split(sep)` for a one-character separator, on char lists.
`splitOnChar c [] = [[]]`, matching Python's `"".split("|") == [""]`. -/
def splitOnChar (sep : Char) : List Char → List (List Char)
  | [] => [[]]
  | x :: xs =>
    match splitOnChar sep xs with
    | [] => [[]]
    | y :: ys => if x = sep then [] :: y :: ys else (x :: y) :: ys

/-- Python `s.split("|")`. -/
def pySplitPipe (s : String) : List String := (splitOnChar '|' s.data).map String.mk

/-- Python `dict.get(key, [])` over an association list (first binding wins,
as in a `dict` built without duplicate keys). -/
def assocGet (m : List (String × List String)) (key : String) : List String :=
  match m.find? (fun p => p.1 = key) with
  | some p => p.2
  | none => []

/-! ## `regulatory/models.py` — the alert record and its CSV row -/

/-- `models.RegulatoryAlert.date`: `Union[date, str]` — a structured calendar
date or an opaque string. -/
inductive AlertDate
  | date (year month day : Nat)
  | str (s : String)
deriving DecidableEq

/-- `models.RegulatoryAlert`: one normalised regulatory alert. -/
structure RegulatoryAlert where
  source : String
  alert_id : String
  title : String
  date : AlertDate
  category : String
  mapped_tp_ids : List String := []
  url : String := ""
  severity : String := ""
  summary : String := ""
deriving DecidableEq

/-- `models.CSV_COLUMNS`: the fixed CSV column order. -/
def CSV_COLUMNS : List String :=
  ["source", "alert_id", "title", "date", "category", "mapped_tp_ids",
   "url", "severity", "summary"]

/-- Python `f"{n:02d}"` / `f"{n:04d}"`-style zero padding used by
`date.isoformat()`. -/
def padNum (width n : Nat) : String :=
  let s := toString n
  String.mk (List.replicate (width - s.length) '0' ++ s.data)

/-- `datetime.date.isoformat()`: `YYYY-MM-DD`. -/
def AlertDate.isoformat : AlertDate → String
  | .date y m d => padNum 4 y ++ "-" ++ padNum 2 m ++ "-" ++ padNum 2 d
  | .str s => s

/-- `RegulatoryAlert.to_csv_row`: the row of cell values in `CSV_COLUMNS`
order; a structured `date` is ISO-formatted, a string `date` is passed
through `str(...)`, and `mapped_tp_ids` is `"|".join(...)`-serialized. -/
def RegulatoryAlert.to_csv_row (a : RegulatoryAlert) : List String :=
  [a.source, a.alert_id, a.title, a.date.isoformat, a.category,
   String.intercalate "|" a.mapped_tp_ids, a.url, a.severity, a.summary]

/-! ## `regulatory/base.py` — the adapter contract -/

/-- `RegulatorySource.map_category_to_tps`: dictionary lookup in the
configured `category_mapping`; empty list when the category is unmapped. -/
def map_category_to_tps (category_mapping : List (String × List String))
    (category : String) : List String :=
  assocGet category_mapping category

/-- `RegulatorySource.run`: execute `fetch` then `parse`; any exception
raised by either step is caught (and logged) and yields the empty list.
Fallible Python steps are modelled by `Except String`: `.error e` is a
raised exception, `.ok v` a normal return. -/
def RegulatorySource.run {Raw : Type}
    (fetch : Except String Raw)
    (parse : Raw → Except String (List RegulatoryAlert)) : List RegulatoryAlert :=
  match fetch with
  | .error _ => []
  | .ok raw =>
    match parse raw with
    | .error _ => []
    | .ok alerts => alerts

/-! ## The shared shape of the scraped/row-based parse loops

Four adapters (SEC, OCC, FinCEN, FBI IC3) iterate over the structural items
their HTML front end extracted, skip items failing the source's retention
conditions (`continue`), and append an alert whose `alert_id` embeds
`len(alerts)` — the output position — at append time. -/

/-- The loop body: `for item: if keep(item): alerts.append(mk(len(alerts), item))`. -/
def parseLoopGo {α : Type} (keep : α → Bool) (mk : Nat → α → RegulatoryAlert)
    (acc : List RegulatoryAlert) : List α → List RegulatoryAlert
  | [] => acc
  | x :: xs =>
    if keep x then parseLoopGo keep mk (acc ++ [mk acc.length x]) xs
    else parseLoopGo keep mk acc xs

/-- The per-source parse loop, started from the empty alert list. -/
def parseLoop {α : Type} (keep : α → Bool) (mk : Nat → α → RegulatoryAlert)
    (items : List α) : List RegulatoryAlert :=
  parseLoopGo keep mk [] items

/-- Raw input of the four HTML-scraping adapters: either the falsy raw that
the `if not raw_data: return []` guard catches (empty string / `None`), or a
page from which the HTML front end extracted the listed structural items. -/
inductive HtmlRaw (Item : Type)
  | empty
  | page (items : List Item)

/-- Title deduplication used by OCC and FBI IC3: keep, for each title, the
first alert carrying it.  `seen` models the Python `set` of titles. -/
def dedupeByTitleGo (seen : List String) (unique : List RegulatoryAlert) :
    List RegulatoryAlert → List RegulatoryAlert
  | [] => unique
  | x :: xs =>
    if seen.contains x.title then dedupeByTitleGo seen unique xs
    else dedupeByTitleGo (seen ++ [x.title]) (unique ++ [x]) xs

/-- `seen = set(); unique = []; for x in alerts: if x.title not in seen: …`. -/
def dedupeByTitle (alerts : List RegulatoryAlert) : List RegulatoryAlert :=
  dedupeByTitleGo [] [] alerts

/-! ## `regulatory/sources/cfpb.py` -/

/-- One CFPB hit's `_source` object, with the fields `parse` reads (each via
`src.get(…, "")`, so missing fields are already the empty string). -/
structure CfpbHit where
  complaint_id : String
  product : String
  date_received : String
  issue : String
  complaint_what_happened : String
deriving DecidableEq

/-- Build one CFPB alert from a hit's `_source`. -/
def cfpbMk (category_mapping : List (String × List String))
    (src : CfpbHit) : RegulatoryAlert :=
  { source := "cfpb"
    alert_id := "cfpb-" ++ src.complaint_id
    title := src.issue
    date := .str src.date_received
    category := src.product
    mapped_tp_ids := map_category_to_tps category_mapping src.product
    url := ""
    severity := "medium"
    summary := src.complaint_what_happened }

/-- `CFPBSource.parse`.  The raw JSON is modelled by the list of hits that
`raw_data.get("hits", {}).get("hits", [])` yields; in particular the empty
dict `{}` is the empty hit list, since both `get`s then take their
defaults. -/
def cfpbParse (category_mapping : List (String × List String))
    (hits : List CfpbHit) : List RegulatoryAlert :=
  hits.map (cfpbMk category_mapping)

/-! ## `regulatory/sources/sec.py` -/

/-- One `<tr>` of the SEC litigation table, as extracted by BeautifulSoup:
the row's visible text (stripped, newlines replaced by spaces), the cell
texts (each `.text.strip()`), and the `href` of the row's first anchor. -/
structure SecRow where
  txt : String
  tds : List String
  link : Option String
deriving DecidableEq

/-- The SEC row retention conditions: a `"LR-"`/`"Release No."` marker in
the row text, at least two cells, a non-empty date cell, and an anchor. -/
def secKeep (r : SecRow) : Bool :=
  (pyContains r.txt "LR-" || pyContains r.txt "Release No.")
    && decide (2 ≤ r.tds.length)
    && !(r.tds.headD "" == "")
    && r.link.isSome

/-- Build one SEC alert from a retained row, `pos = len(alerts)`. -/
def secMk (category_mapping : List (String × List String))
    (pos : Nat) (r : SecRow) : RegulatoryAlert :=
  let title_text := if 3 ≤ r.tds.length then r.tds.getD 2 "" else r.tds.getD 1 ""
  let title := "SEC Litigation: " ++ title_text
  let link0 := (r.link).getD ""
  let link := if pyStartsWith link0 "/" then "https://www.sec.gov" ++ link0 else link0
  let tp_ids := map_category_to_tps category_mapping "Litigation Release"
  { source := "sec"
    alert_id := "sec-" ++ pad4 pos
    title := pyTake title 250
    date := .str (r.tds.headD "")
    category := "Litigation Release"
    mapped_tp_ids := tp_ids
    url := link
    severity := if !tp_ids.isEmpty then "high" else "medium"
    summary := "SEC Enforcement Action / Litigation Release" }

/-- `SECSource.parse`. -/
def secParse (category_mapping : List (String × List String)) :
    HtmlRaw SecRow → List RegulatoryAlert
  | .empty => []
  | .page rows => parseLoop secKeep (secMk category_mapping) rows

/-! ## `regulatory/sources/occ.py` -/

/-- One `<a href=…>` anchor of the OCC bulletins page: its stripped text,
its `href`, its serialized HTML (`str(a)`), and the date string the
surrounding markup yields (the parent's `<time>` text, else the first
`"Month D, YYYY"` regex match in the parent text, else `""`). -/
structure OccAnchor where
  text : String
  href : String
  html : String
  dateText : String
deriving DecidableEq

/-- OCC anchor retention: `"bulletin" in href.lower()`, text longer than
10 characters, and no `"<img"` in the anchor's HTML. -/
def occKeep (a : OccAnchor) : Bool :=
  pyContains (pyLower a.href) "bulletin"
    && decide (10 < a.text.length)
    && !(pyContains a.html "<img")

/-- The OCC title: the anchor text, truncated to 147 chars plus `"..."`
when longer than 150. -/
def occTitle (a : OccAnchor) : String :=
  if 150 < a.text.length then pyTake a.text 147 ++ "..." else a.text

/-- The OCC category: `"Enforcement Action"` when the (truncated) title
contains `"enforcement"` case-insensitively, else `"Bulletin"`. -/
def occCategory (a : OccAnchor) : String :=
  if pyContains (pyLower (occTitle a)) "enforcement" then "Enforcement Action"
  else "Bulletin"

/-- Build one OCC alert from a retained anchor, `pos = len(alerts)`. -/
def occMk (category_mapping : List (String × List String))
    (pos : Nat) (a : OccAnchor) : RegulatoryAlert :=
  let tp_ids := map_category_to_tps category_mapping (occCategory a)
  let href := if pyStartsWith a.href "/" then "https://www.occ.gov" ++ a.href else a.href
  { source := "occ"
    alert_id := "occ-" ++ pad4 pos
    title := occTitle a
    date := .str a.dateText
    category := occCategory a
    mapped_tp_ids := tp_ids
    url := href
    severity := if !tp_ids.isEmpty then "medium" else "low"
    summary := "OCC Regulatory Bulletin" }

/-- `OCCSource.parse`: extraction loop, then title deduplication. -/
def occParse (category_mapping : List (String × List String)) :
    HtmlRaw OccAnchor → List RegulatoryAlert
  | .empty => []
  | .page anchors => dedupeByTitle (parseLoop occKeep (occMk category_mapping) anchors)

/-! ## `regulatory/sources/fincen.py` -/

/-- One `<tr>` of the FinCEN advisories table: its cell count, the date
string extracted from the first cell (its `<time>` text if present, else
the cell text, stripped), and the first anchor of the second cell
(stripped text and `href`), if any. -/
structure FincenRow where
  cells : Nat
  dateText : String
  anchor : Option (String × String)
deriving DecidableEq

/-- FinCEN row retention: at least two cells, non-empty date, an anchor. -/
def fincenKeep (r : FincenRow) : Bool :=
  decide (2 ≤ r.cells) && !(r.dateText == "") && r.anchor.isSome

/-- Build one FinCEN alert from a retained row, `pos = len(alerts)`. -/
def fincenMk (category_mapping : List (String × List String))
    (pos : Nat) (r : FincenRow) : RegulatoryAlert :=
  let a := r.anchor.getD ("", "")
  let link := if pyStartsWith a.2 "/" then "https://www.fincen.gov" ++ a.2 else a.2
  let tp_ids := map_category_to_tps category_mapping "Advisory"
  { source := "fincen"
    alert_id := "fincen-" ++ pad4 pos
    title := a.1
    date := .str r.dateText
    category := "Advisory"
    mapped_tp_ids := tp_ids
    url := link
    severity := if !tp_ids.isEmpty then "high" else "medium"
    summary := "FinCEN Advisory Notification" }

/-- `FinCENSource.parse`. -/
def fincenParse (category_mapping : List (String × List String)) :
    HtmlRaw FincenRow → List RegulatoryAlert
  | .empty => []
  | .page rows => parseLoop fincenKeep (fincenMk category_mapping) rows

/-! ## `regulatory/sources/fbi_ic3.py` -/

/-- One `<a href=…>` anchor of the IC3 alerts page: its stripped text, its
`href`, and the date string the surrounding markup yields (the first
`"Ddd, D Mmm YYYY"` regex match in the parent's text, else `""`). -/
structure FbiAnchor where
  text : String
  href : String
  dateText : String
deriving DecidableEq

/-- IC3 anchor retention: `"/CSA/"` in the href and the lower-cased href
ends with `".pdf"`. -/
def fbiKeep (a : FbiAnchor) : Bool :=
  pyContains a.href "/CSA/" && pyEndsWith (pyLower a.href) ".pdf"

/-- Build one IC3 alert from a retained anchor, `pos = len(alerts)`. -/
def fbiMk (category_mapping : List (String × List String))
    (pos : Nat) (a : FbiAnchor) : RegulatoryAlert :=
  let tp_ids := map_category_to_tps category_mapping "Industry Alert"
  let href := if pyStartsWith a.href "/" then "https://www.ic3.gov" ++ a.href else a.href
  { source := "fbi_ic3"
    alert_id := "ic3-" ++ pad4 pos
    title := a.text
    date := .str a.dateText
    category := "Industry Alert"
    mapped_tp_ids := tp_ids
    url := href
    severity := if !tp_ids.isEmpty then "high" else "medium"
    summary := "FBI IC3 Notification" }

/-- `FBIC3Source.parse`: extraction loop, then title deduplication. -/
def fbiParse (category_mapping : List (String × List String)) :
    HtmlRaw FbiAnchor → List RegulatoryAlert
  | .empty => []
  | .page anchors => dedupeByTitle (parseLoop fbiKeep (fbiMk category_mapping) anchors)

/-! ## `regulatory/sources/ofac.py` -/

/-- One `sdnEntry` element, after the namespace-aware `_text`/`findall`
extraction (each `_text` defaulting to `""` for a missing child). -/
structure OfacEntry where
  uid : String
  firstName : String
  lastName : String
  sdnType : String
  programs : List String
deriving DecidableEq

/-- A successfully parsed SDN document: the `Publish_Date` text (`""` when
`publshInformation` is absent) and the `sdnEntry` list. -/
structure OfacXml where
  publishDate : String
  entries : List OfacEntry
deriving DecidableEq

/-- Raw bytes handed to `OFACSource.parse`, at the granularity of
`xml.etree.ElementTree.fromstring` (via `defusedxml`): empty input
(`b""`), a well-formed document, or otherwise malformed bytes. -/
inductive XmlInput
  | empty
  | parsed (doc : OfacXml)
  | malformed

/-- `fromstring` raises `ParseError` ("no element found") on empty input —
an empty byte string contains no root element — and on malformed input. -/
def xmlFromstring : XmlInput → Except String OfacXml
  | .empty => .error "ParseError: no element found"
  | .parsed doc => .ok doc
  | .malformed => .error "ParseError"

/-- Build one OFAC alert from an `sdnEntry`. -/
def ofacMk (category_mapping : List (String × List String))
    (publishDate : String) (e : OfacEntry) : RegulatoryAlert :=
  let tp_ids := map_category_to_tps category_mapping "SDN List Addition"
  { source := "ofac"
    alert_id := "ofac-" ++ e.uid
    title := "OFAC SDN: " ++ e.firstName ++ " " ++ e.lastName ++ " (" ++ e.sdnType ++ ")"
    date := .str publishDate
    category := "SDN List Addition"
    mapped_tp_ids := tp_ids
    url := ""
    severity := "high"
    summary := "SDN entry — type: " ++ e.sdnType ++ ", programs: "
      ++ String.intercalate ", " e.programs }

/-- `OFACSource.parse`: `fromstring` first — with no guard for empty raw
bytes, unlike the other five adapters — then one alert per entry.  A raised
`ParseError` is `.error`. -/
def ofacParse (category_mapping : List (String × List String))
    (raw : XmlInput) : Except String (List RegulatoryAlert) :=
  match xmlFromstring raw with
  | .error e => .error e
  | .ok doc => .ok (doc.entries.map (ofacMk category_mapping doc.publishDate))

/-! ## `fetch_regulatory_data.py` — CSV serialization -/

/-- `write_csv`: the sequence of rows `csv.DictWriter` emits — the
`CSV_COLUMNS` header, then one row per alert in order, each the alert's
`to_csv_row` cell values.  (The writer's cell quoting is injective and
undone on re-read, so rows are modelled as lists of cell values.) -/
def write_csv (alerts : List RegulatoryAlert) : List (List String) :=
  CSV_COLUMNS :: alerts.map RegulatoryAlert.to_csv_row

/-! ## `ft3_mapper.py` — static mapping tables -/

/-- `CFPF_TO_FT3_TACTICS`: CFPF phase → FT3 tactic IDs. -/
def CFPF_TO_FT3_TACTICS : List (String × List String) :=
  [("P1", ["FTA001", "FTA002"]),
   ("P2", ["FTA003", "FTA004"]),
   ("P3", ["FTA005", "FTA006"]),
   ("P4", ["FTA007", "FTA009"]),
   ("P5", ["FTA010"])]

/-- `GROUPIB_TO_FT3_TACTIC`: Group-IB stage name → FT3 tactic ID. -/
def GROUPIB_TO_FT3_TACTIC : List (String × String) :=
  [("Reconnaissance", "FTA001"),
   ("Resource Development", "FTA002"),
   ("Initial Access", "FTA003"),
   ("Trust Abuse", "FTA003"),
   ("End-user Interaction", "FTA003"),
   ("Credential Access", "FTA003"),
   ("Account Access", "FTA003"),
   ("Execution", "FTA004"),
   ("Defence Evasion", "FTA005"),
   ("Defense Evasion", "FTA005"),
   ("Perform Fraud", "FTA007"),
   ("Monetization", "FTA010"),
   ("Laundering", "FTA010")]

/-- `FRAUD_TYPE_KEYWORDS`: fraud-type tag → technique search terms. -/
def FRAUD_TYPE_KEYWORDS : List (String × List String) :=
  [("account-takeover",
    ["account takeover", "credential", "password", "login",
     "session", "exposed credential", "password reset"]),
   ("vishing",
    ["phishing", "social engineering", "phone", "voice", "impersonat"]),
   ("wire-fraud",
    ["wire", "transfer", "payment", "transaction", "fraudulent transaction"]),
   ("malvertising",
    ["malvertising", "ad fraud", "advertising"]),
   ("BEC",
    ["business email", "email compromise", "email account",
     "spearphishing", "impersonat"]),
   ("business-email-compromise",
    ["business email", "email compromise", "email account",
     "spearphishing", "impersonat"]),
   ("invoice-fraud",
    ["invoice", "payment", "billing", "falsifying"]),
   ("payment-diversion",
    ["payment", "diversion", "redirect", "wire", "transfer"]),
   ("synthetic-identity",
    ["synthetic", "identity", "fake", "fabricat", "falsifying",
     "identity document", "establish account"]),
   ("new-account-fraud",
    ["new account", "account open", "establish account",
     "fake merchant", "application"]),
   ("application-fraud",
    ["application", "falsify", "document", "identity"]),
   ("payroll-diversion",
    ["payroll", "diversion", "direct deposit", "payment",
     "account manipulation"]),
   ("phishing",
    ["phishing", "social engineering", "credential", "spearphishing"]),
   ("premium-diversion",
    ["premium", "diversion", "insurance", "payment",
     "account manipulation"]),
   ("impersonation",
    ["impersonat", "identity theft", "fake", "social media attack",
     "website cloning"]),
   ("deepfake",
    ["deepfake", "synthetic", "impersonat", "identity",
     "falsifying", "voice"]),
   ("crypto-laundering",
    ["crypto", "laundering", "cash-out", "shell",
     "scheduled transfer", "payout"]),
   ("check-fraud",
    ["check", "deposit", "document", "falsify", "fabricat"]),
   ("fraudulent-claim",
    ["claim", "fraudulent", "billing", "document", "falsify"]),
   ("disability-fraud",
    ["disability", "insurance", "claim", "fraudulent", "document"]),
   ("provider-fraud",
    ["provider", "billing", "claim", "fraudulent", "upcoding"]),
   ("romance-scam",
    ["romance", "social engineering", "social media", "trust", "impersonat"]),
   ("money-mule",
    ["mule", "money", "laundering", "cash-out", "scheduled transfer"]),
   ("credential-stuffing",
    ["credential", "stuffing", "credential dump",
     "account takeover", "enumeration"]),
   ("insider-threat",
    ["insider", "internal", "access", "data exfiltration",
     "account manipulation", "cross account"]),
   ("collusion",
    ["collusion", "insider", "internal", "account manipulation"]),
   ("data-theft",
    ["data", "exfiltration", "collection", "theft"]),
   ("identity-theft",
    ["identity theft", "identity", "falsifying identity",
     "document", "credential"]),
   ("advance-fee-fraud",
    ["advance fee", "fee", "payment", "social engineering"]),
   ("first-party-fraud",
    ["first party", "bust-out", "churning", "dispute",
     "refund", "policy abuse"]),
   ("bust-out",
    ["bust-out", "bust out", "churning", "dispute", "credit", "refund"]),
   ("investment-scam",
    ["investment", "scam", "social engineering",
     "fraudulent purchase", "wire"]),
   ("social-engineering",
    ["social engineering", "phishing", "impersonat",
     "trust", "spearphishing"]),
   ("authorized-push-payment",
    ["authorized push", "payment", "wire", "transfer",
     "social engineering"]),
   ("documentary-fraud",
    ["document", "falsify", "identity document", "fake", "fabricat"]),
   ("loan-fraud",
    ["loan", "application", "falsify", "document", "identity"]),
   ("vendor-impersonation",
    ["vendor", "impersonat", "supply chain", "business email", "invoice"]),
   ("healthcare-fraud",
    ["healthcare", "billing", "claim", "falsify", "provider", "upcoding"]),
   ("phantom-billing",
    ["phantom", "billing", "claim", "fraudulent", "falsify"]),
   ("upcoding",
    ["upcoding", "billing", "claim", "fraudulent"]),
   ("benefit-fraud",
    ["benefit", "government", "claim", "identity", "fraudulent"]),
   ("tax-fraud",
    ["tax", "fraudulent", "identity", "document", "falsify"]),
   ("malware",
    ["malware", "trojan", "execution", "hijack", "resource hijacking"]),
   ("unauthorized-transaction",
    ["unauthorized", "transaction", "fraudulent transaction",
     "account takeover"])]

/-! ## `ft3_mapper.py` — the three signals -/

/-- An FT3 technique catalog entry, with the fields the mapper reads. -/
structure Technique where
  id : String
  name : String
  description : String
  tactics : String
deriving DecidableEq

/-- `map_cfpf_to_tactics` (signal 1): union of the table rows of the item's
normalised phase keys.  The Python `set` is modelled by duplicate-free
accumulation; only membership/emptiness of the result is consumed. -/
def map_cfpf_to_tactics (cfpf_phases : List String) : List String :=
  cfpf_phases.foldl
    (fun acc phase =>
      let phase_key := pyUpper (pyStrip phase)
      match CFPF_TO_FT3_TACTICS.find? (fun q => q.1 = phase_key) with
      | some q => acc ++ q.2.filter (fun t => !acc.contains t)
      | none => acc)
    []

/-- `map_groupib_to_tactics` (signal 2): union of the single tactic IDs of
the item's stripped stage names. -/
def map_groupib_to_tactics (groupib_stages : List String) : List String :=
  groupib_stages.foldl
    (fun acc stage =>
      let stage_clean := pyStrip stage
      match GROUPIB_TO_FT3_TACTIC.find? (fun q => q.1 = stage_clean) with
      | some q => if acc.contains q.2 then acc else acc ++ [q.2]
      | none => acc)
    []

/-- The search terms of one run of signal 3: known tags expand through
`FRAUD_TYPE_KEYWORDS`; unknown tags fall back to the tag itself with
hyphens replaced by spaces. -/
def collectTerms (fraud_types : List String) : List String :=
  fraud_types.foldl
    (fun acc ft =>
      let ft_key := pyLower (pyStrip ft)
      match FRAUD_TYPE_KEYWORDS.find? (fun q => q.1 = ft_key) with
      | some q => acc ++ q.2
      | none => acc ++ [String.mk (ft_key.data.map fun c => if c = '-' then ' ' else c)])
    []

/-- Score one technique against the term list: a term found in the name
scores 3, else 1 if found in name-plus-description; each distinct term
counts at most once (`matched_terms`).  All Python float scores are sums of
`3.0`/`1.0`, hence exactly the `Nat` computed here. -/
def scoreTechnique (all_terms : List String) (tech : Technique) : Nat :=
  let tech_name := pyLower tech.name
  let searchable := tech_name ++ " " ++ pyLower tech.description
  (all_terms.foldl
    (fun (st : Nat × List String) term =>
      let term_lower := pyLower term
      if st.2.contains term_lower then st
      else if pyContains tech_name term_lower then (st.1 + 3, st.2 ++ [term_lower])
      else if pyContains searchable term_lower then (st.1 + 1, st.2 ++ [term_lower])
      else st)
    (0, [])).1

/-- `map_fraud_types_to_techniques` (signal 3): `(id, name, score)` for each
technique with positive score, stably sorted by score descending (Python's
`list.sort(key=…, reverse=True)` is a stable sort, as is `mergeSort`). -/
def map_fraud_types_to_techniques (fraud_types : List String)
    (techniques : List Technique) : List (String × String × Nat) :=
  let all_terms := collectTerms fraud_types
  if all_terms.isEmpty then []
  else
    let scored := techniques.foldl
      (fun acc tech =>
        let score := scoreTechnique all_terms tech
        if 0 < score then acc ++ [(tech.id, tech.name, score)] else acc)
      []
    scored.mergeSort (fun a b => decide (b.2.2 ≤ a.2.2))

/-! ## `ft3_mapper.py` — technique filtering and confidence -/

/-- `tid.split(".")[0] if "." in tid else tid`: the parent identifier. -/
def parentOf (tid : String) : String :=
  if pyContains tid "." then String.mk ((splitOnChar '.' tid.data).headD [])
  else tid

/-- The technique-filter loop of `map_single_tp`: walk the ranked matches;
a parent technique is kept when its ID is unseen; a sub-technique (ID
containing `"."`) is kept only when its parent is unseen *and* its score is
`>= 4.0`; either way the parent ID is recorded; stop as soon as ten
techniques are kept. -/
def filterTechniquesGo (top : List (String × String × Nat)) (seen : List String) :
    List (String × String × Nat) → List (String × String × Nat)
  | [] => top
  | m :: rest =>
    let is_sub := pyContains m.1 "."
    let parent_id := parentOf m.1
    let st :=
      if is_sub then
        if !seen.contains parent_id && decide (4 ≤ m.2.2) then
          (top ++ [m], seen ++ [parent_id])
        else (top, seen)
      else
        if !seen.contains parent_id then (top ++ [m], seen ++ [parent_id])
        else (top, seen)
    if 10 ≤ st.1.length then st.1 else filterTechniquesGo st.1 st.2 rest

/-- The filtered `top_techniques` list of `map_single_tp`. -/
def filterTechniques (technique_matches : List (String × String × Nat)) :
    List (String × String × Nat) :=
  filterTechniquesGo [] [] technique_matches

/-- `determine_confidence`: count the non-empty signals (Python truthiness
of the two tactic sets and the filtered match list); `>= 3` → `"high"`,
`>= 2` → `"medium"`, else `"low"`. -/
def determine_confidence (cfpf_tactics : List String)
    (groupib_tactics : List String)
    (technique_matches : List (String × String × Nat)) : String :=
  let signals_active : Nat :=
    (if !cfpf_tactics.isEmpty then 1 else 0)
      + (if !groupib_tactics.isEmpty then 1 else 0)
      + (if !technique_matches.isEmpty then 1 else 0)
  if 3 ≤ signals_active then "high"
  else if 2 ≤ signals_active then "medium"
  else "low"

/-- The confidence computed by `map_single_tp` for an item: the three
signals are signal 1 on the item's phases, signal 2 on its stages, and the
*filtered* technique list from signal 3 on its fraud types. -/
def tpConfidence (cfpf_phases groupib_stages fraud_types : List String)
    (techniques : List Technique) : String :=
  determine_confidence
    (map_cfpf_to_tactics cfpf_phases)
    (map_groupib_to_tactics groupib_stages)
    (filterTechniques (map_fraud_types_to_techniques fraud_types techniques))

/-! ## `ft3_mapper.py` — apply mode (`apply_ft3_tactics`)

The document is modelled as its list of newline-terminated lines.  The two
`re.MULTILINE` patterns are `^`-anchored, so a match begins at a line start;
they are modelled at line granularity (`\s` inside one line is the
horizontal whitespace `isInlineWS`; the exotic char-level possibility of a
`\s*` crossing a newline is excluded in the theorems below by requiring
that no *earlier* line starts with the field name). -/

/-- In-line whitespace: `\s` restricted to one line. -/
def isInlineWS (c : Char) : Bool :=
  c == ' ' || c == '\t' || c == '\r' || c == '\x0b' || c == '\x0c'

/-- `l` with the prefix `pre` removed, when `pre` is a prefix. -/
def dropPrefix? (pre l : List Char) : Option (List Char) :=
  if pre.isPrefixOf l then some (l.drop pre.length) else none

/-- The head line of `pattern_block` = `^ft3_tactics:\s*\n…`: the field
name followed only by whitespace to the line's end. -/
def blockHeadMatch (line : String) : Bool :=
  match dropPrefix? "ft3_tactics:".data line.data with
  | none => false
  | some rest => rest.all isInlineWS

/-- Keep-first-by-title, written as a structural specification: the head is
kept (it is the first alert with its title) and later alerts with the same
title are discarded before recursing. -/
def keepFirstByTitle : List RegulatoryAlert → List RegulatoryAlert
  | [] => []
  | x :: xs => x :: keepFirstByTitle (xs.filter fun b => !(b.title == x.title))
termination_by l => l.length
decreasing_by
  simp only [List.length_cons]
  exact Nat.lt_succ_of_le (List.length_filter_le _ _)

/-- Keep-first over `(title, alert_id)` pairs, keyed by the title. -/
def keepFirstByKey : List (String × String) → List (String × String)
  | [] => []
  | x :: xs => x :: keepFirstByKey (xs.filter fun b => !(b.1 == x.1))
termination_by l => l.length
decreasing_by
  simp only [List.length_cons]
  exact Nat.lt_succ_of_le (List.length_filter_le _ _)

/-- The severity order of the spec: `low < medium < high`. -/
def sevRank (s : String) : Nat :=
  if s == "high" then 2 else if s == "medium" then 1 else 0

/-- The confidence-tier order of the spec: `low < medium < high`. -/
def confRank (c : String) : Nat :=
  if c == "high" then 2 else if c == "medium" then 1 else 0

/-! ## C1 — `run()` is the fault-isolation boundary -/

/-- C1: For every regulatory source adapter and every behaviour of its
fetch and parse steps, `run()` never raises: if `fetch()` or `parse()`
raises any exception, `run()` catches it and returns the empty list;
otherwise `run()` returns exactly `parse(fetch())`.  (In the embedding a
raised exception is `Except.error`; `run` is total, so it never raises.) -/
theorem run_fault_isolation {Raw : Type}
    (fetch : Except String Raw)
    (parse : Raw → Except String (List RegulatoryAlert)) :
    ((∃ e, fetch = .error e) → RegulatorySource.run fetch parse = []) ∧
    (∀ raw e, fetch = .ok raw → parse raw = .error e →
      RegulatorySource.run fetch parse = []) ∧
    (∀ raw alerts, fetch = .ok raw → parse raw = .ok alerts →
      RegulatorySource.run fetch parse = alerts) := by
  refine ⟨?_, ?_, ?_⟩
  · rintro ⟨e, rfl⟩; rfl
  · rintro raw e rfl hp; simp [RegulatorySource.run, hp]
  · rintro raw alerts rfl hp; simp [RegulatorySource.run, hp]

/-- Witness for C1: a failing `fetch` yields `[]`, and a succeeding
pipeline yields the parse result. -/
theorem run_fault_isolation_witness :
    RegulatorySource.run (Except.error "HTTPError")
      (fun _ : String => Except.ok ([] : List RegulatoryAlert)) = [] :=
  (run_fault_isolation _ _).1 ⟨"HTTPError", rfl⟩

/-! ## C2 — parse on the adapter's empty raw representation -/

/-- C2 (refuted for OFAC): the five guarded adapters return `[]` on their
empty/falsy raw representation, but `OFACSource.parse` hands empty raw
bytes straight to `fromstring`, which raises `ParseError` — so parse on
OFAC's empty raw raises instead of returning the empty list. -/
theorem parse_empty_raw (cfg : List (String × List String)) :
    secParse cfg .empty = [] ∧
    occParse cfg .empty = [] ∧
    fincenParse cfg .empty = [] ∧
    fbiParse cfg .empty = [] ∧
    cfpbParse cfg [] = [] ∧
    ofacParse cfg .empty = .error "ParseError: no element found" :=
  ⟨rfl, rfl, rfl, rfl, rfl, rfl⟩

/-! ## C3 — the confidence tier counts participating signals -/

/-- C3: the FT3 confidence tier is a pure function of which of the three
signals are non-empty — three non-empty signals give `"high"`, exactly two
give `"medium"`, one or none give `"low"` — it does not depend on how many
candidates a signal produced, and turning a previously-empty signal
non-empty (keeping the others' emptiness fixed) never decreases the tier;
`map_single_tp` computes it from the phase-alignment set, the
stage-alignment set, and the *filtered* technique list. -/
theorem confidence_signal_count :
    (∀ (c g : List String) (t : List (String × String × Nat))
       (c' g' : List String) (t' : List (String × String × Nat)),
      (c = [] ↔ c' = []) → (g = [] ↔ g' = []) → (t = [] ↔ t' = []) →
      determine_confidence c g t = determine_confidence c' g' t') ∧
    (∀ (c g : List String) (t : List (String × String × Nat)),
      (c ≠ [] → g ≠ [] → t ≠ [] → determine_confidence c g t = "high") ∧
      ((if c = [] then 0 else 1) + (if g = [] then 0 else 1)
          + (if t = [] then 0 else 1) = 2 →
        determine_confidence c g t = "medium") ∧
      ((if c = [] then 0 else 1) + (if g = [] then 0 else 1)
          + (if t = [] then 0 else 1) ≤ 1 →
        determine_confidence c g t = "low")) ∧
    (∀ (c g : List String) (t : List (String × String × Nat))
       (c' g' : List String) (t' : List (String × String × Nat)),
      (c ≠ [] → c' ≠ []) → (g ≠ [] → g' ≠ []) → (t ≠ [] → t' ≠ []) →
      confRank (determine_confidence c g t)
        ≤ confRank (determine_confidence c' g' t')) ∧
    (∀ (cfpf_phases groupib_stages fraud_types : List String)
       (techniques : List Technique),
      tpConfidence cfpf_phases groupib_stages fraud_types techniques
        = determine_confidence
            (map_cfpf_to_tactics cfpf_phases)
            (map_groupib_to_tactics groupib_stages)
            (filterTechniques
              (map_fraud_types_to_techniques fraud_types techniques))) := by
  refine ⟨?_, ?_, ?_, fun _ _ _ _ => rfl⟩
  · intro c g t c' g' t' hc hg ht
    cases c <;> cases g <;> cases t <;> cases c' <;> cases g' <;> cases t' <;>
      simp_all [determine_confidence]
  · intro c g t
    cases c <;> cases g <;> cases t <;>
      refine ⟨?_, ?_, ?_⟩ <;> simp_all [determine_confidence]
  · intro c g t c' g' t' hc hg ht
    cases c <;> cases g <;> cases t <;> cases c' <;> cases g' <;> cases t' <;>
      simp_all [determine_confidence, confRank]

/-- Witness for C3: two phase-derived tactics and one technique match but
no stage match give the same tier as minimal non-empty signals — `"medium"`
— and adding the missing stage signal raises it to `"high"`. -/
theorem confidence_signal_count_witness :
    determine_confidence ["FTA001", "FTA002"] [] [("FT505", "Wire Fraud", 6)]
      = determine_confidence ["FTA001"] [] [("FT001", "x", 1)] ∧
    confRank (determine_confidence ["FTA001", "FTA002"] [] [("FT505", "Wire Fraud", 6)])
      ≤ confRank (determine_confidence ["FTA001", "FTA002"] ["FTA003"]
          [("FT505", "Wire Fraud", 6)]) :=
  ⟨confidence_signal_count.1 _ _ _ _ _ _ (by simp) (by simp) (by simp),
   confidence_signal_count.2.2.1 _ _ _ _ _ _ (by simp) (by simp) (by simp)⟩

/-! ## C5 — mapped categories are never less severe -/

/-- C5: for each of the six adapters, an alert whose category has a
non-empty `category_mapping` entry never gets a strictly lower severity
than the otherwise-identical alert whose category is unmapped
(`low < medium < high`). -/
theorem severity_monotone :
    (∀ (r : SecRow) (pos : Nat) (m m' : List (String × List String)),
      map_category_to_tps m "Litigation Release" ≠ [] →
      map_category_to_tps m' "Litigation Release" = [] →
      sevRank (secMk m' pos r).severity ≤ sevRank (secMk m pos r).severity) ∧
    (∀ (a : OccAnchor) (pos : Nat) (m m' : List (String × List String)),
      map_category_to_tps m (occCategory a) ≠ [] →
      map_category_to_tps m' (occCategory a) = [] →
      sevRank (occMk m' pos a).severity ≤ sevRank (occMk m pos a).severity) ∧
    (∀ (r : FincenRow) (pos : Nat) (m m' : List (String × List String)),
      map_category_to_tps m "Advisory" ≠ [] →
      map_category_to_tps m' "Advisory" = [] →
      sevRank (fincenMk m' pos r).severity ≤ sevRank (fincenMk m pos r).severity) ∧
    (∀ (a : FbiAnchor) (pos : Nat) (m m' : List (String × List String)),
      map_category_to_tps m "Industry Alert" ≠ [] →
      map_category_to_tps m' "Industry Alert" = [] →
      sevRank (fbiMk m' pos a).severity ≤ sevRank (fbiMk m pos a).severity) ∧
    (∀ (src : CfpbHit) (m m' : List (String × List String)),
      map_category_to_tps m src.product ≠ [] →
      map_category_to_tps m' src.product = [] →
      sevRank (cfpbMk m' src).severity ≤ sevRank (cfpbMk m src).severity) ∧
    (∀ (e : OfacEntry) (d : String) (m m' : List (String × List String)),
      map_category_to_tps m "SDN List Addition" ≠ [] →
      map_category_to_tps m' "SDN List Addition" = [] →
      sevRank (ofacMk m' d e).severity ≤ sevRank (ofacMk m d e).severity) := by
  refine ⟨?_, ?_, ?_, ?_, ?_, ?_⟩ <;> intros <;>
    simp_all [secMk, occMk, fincenMk, fbiMk, cfpbMk, ofacMk, sevRank,
      List.isEmpty_iff]

/-- Witness for C5 (SEC): with `"Litigation Release"` mapped the severity
is `"high"`, unmapped it is `"medium"`. -/
theorem severity_monotone_witness :
    sevRank (secMk [] 0 ⟨"LR-100", ["2024-01-02", "LR-100", "Acme"], some "/x"⟩).severity
      ≤ sevRank (secMk [("Litigation Release", ["TP-0001"])] 0
          ⟨"LR-100", ["2024-01-02", "LR-100", "Acme"], some "/x"⟩).severity :=
  severity_monotone.1 _ 0 _ _ (by decide) (by decide)

/-! ## Helper lemmas about the technique filter -/

/-- The filter loop never grows the kept list beyond ten entries. -/
theorem filterTechniquesGo_length_le :
    ∀ (l : List (String × String × Nat)) (top : List (String × String × Nat))
      (seen : List String), top.length < 10 →
      (filterTechniquesGo top seen l).length ≤ 10 := by
  intro l
  induction l with
  | nil => intro top seen h; simpa [filterTechniquesGo] using Nat.le_of_lt h
  | cons m rest ih =>
    intro top seen h
    simp only [filterTechniquesGo]
    have hst : ∀ (st : List (String × String × Nat) × List String),
        st.1.length ≤ top.length + 1 →
        (if 10 ≤ st.1.length then st.1
         else filterTechniquesGo st.1 st.2 rest).length ≤ 10 := by
      intro st h1
      split
      · omega
      · next hlt => exact ih _ _ (by omega)
    apply hst
    split <;> split <;> simp

/-- Whatever the filter loop returns is the kept list so far followed by a
subsequence of the remaining ranked matches. -/
theorem filterTechniquesGo_append_sublist :
    ∀ (l top : List (String × String × Nat)) (seen : List String),
      ∃ l', filterTechniquesGo top seen l = top ++ l' ∧ l'.Sublist l := by
  intro l
  induction l with
  | nil => intro top seen; exact ⟨[], by simp [filterTechniquesGo], List.nil_sublist []⟩
  | cons m rest ih =>
    intro top seen
    simp only [filterTechniquesGo]
    have hkeep : ∀ (seen' : List String),
        ∃ l', (if 10 ≤ (top ++ [m]).length then top ++ [m]
               else filterTechniquesGo (top ++ [m]) seen' rest) = top ++ l' ∧
          l'.Sublist (m :: rest) := by
      intro seen'
      split
      · exact ⟨[m], rfl, by simp⟩
      · obtain ⟨l', heq, hs⟩ := ih (top ++ [m]) seen'
        exact ⟨m :: l', by simp [heq], List.Sublist.cons₂ m hs⟩
    have hskip :
        ∃ l', (if 10 ≤ top.length then top
               else filterTechniquesGo top seen rest) = top ++ l' ∧
          l'.Sublist (m :: rest) := by
      split
      · exact ⟨[], by simp, List.nil_sublist _⟩
      · obtain ⟨l', heq, hs⟩ := ih top seen
        exact ⟨l', heq, List.Sublist.cons m hs⟩
    by_cases hsub : pyContains m.1 "." = true
    · by_cases hp : parentOf m.1 ∈ seen
      · simpa [hsub, hp] using hskip
      · by_cases hs4 : 4 ≤ m.2.2
        · simpa [hsub, hp, hs4] using hkeep (seen ++ [parentOf m.1])
        · simpa [hsub, hp, hs4] using hskip
    · by_cases hp : parentOf m.1 ∈ seen
      · simpa [hsub, hp] using hskip
      · simpa [hsub, hp] using hkeep (seen ++ [parentOf m.1])

/-- Invariant of the filter loop: the kept entries have pairwise-distinct
parent identifiers, and every kept sub-technique has score `>= 4.0`. -/
theorem filterTechniquesGo_invariant :
    ∀ (l top : List (String × String × Nat)) (seen : List String),
      (∀ e ∈ top, parentOf e.1 ∈ seen) →
      top.Pairwise (fun a b => parentOf a.1 ≠ parentOf b.1) →
      (∀ e ∈ top, pyContains e.1 "." = true → 4 ≤ e.2.2) →
      (filterTechniquesGo top seen l).Pairwise
          (fun a b => parentOf a.1 ≠ parentOf b.1) ∧
      ∀ e ∈ filterTechniquesGo top seen l,
        pyContains e.1 "." = true → 4 ≤ e.2.2 := by
  intro l
  induction l with
  | nil =>
    intro top seen h1 h2 h3
    exact ⟨by simpa [filterTechniquesGo] using h2,
      by simpa [filterTechniquesGo] using h3⟩
  | cons m rest ih =>
    intro top seen h1 h2 h3
    simp only [filterTechniquesGo]
    have hstep : ∀ (top' : List (String × String × Nat)) (seen' : List String),
        (∀ e ∈ top', parentOf e.1 ∈ seen') →
        top'.Pairwise (fun a b => parentOf a.1 ≠ parentOf b.1) →
        (∀ e ∈ top', pyContains e.1 "." = true → 4 ≤ e.2.2) →
        ((if 10 ≤ top'.length then top'
          else filterTechniquesGo top' seen' rest).Pairwise
            (fun a b => parentOf a.1 ≠ parentOf b.1)) ∧
        (∀ e ∈ (if 10 ≤ top'.length then top'
            else filterTechniquesGo top' seen' rest),
          pyContains e.1 "." = true → 4 ≤ e.2.2) := by
      intro top' seen' g1 g2 g3
      split
      · exact ⟨g2, g3⟩
      · exact ih top' seen' g1 g2 g3
    have hkeepinv : parentOf m.1 ∉ seen →
        (pyContains m.1 "." = true → 4 ≤ m.2.2) →
        (∀ e ∈ top ++ [m], parentOf e.1 ∈ seen ++ [parentOf m.1]) ∧
        ((top ++ [m]).Pairwise fun a b => parentOf a.1 ≠ parentOf b.1) ∧
        (∀ e ∈ top ++ [m], pyContains e.1 "." = true → 4 ≤ e.2.2) := by
      intro hns hsc
      refine ⟨?_, ?_, ?_⟩
      · intro e he
        rcases List.mem_append.1 he with he | he
        · exact List.mem_append.2 (Or.inl (h1 e he))
        · rw [List.mem_singleton.1 he]
          exact List.mem_append.2 (Or.inr (List.mem_singleton.2 rfl))
      · refine List.pairwise_append.2 ⟨h2, List.pairwise_singleton _ _, ?_⟩
        intro a ha b hb
        rw [List.mem_singleton.1 hb]
        intro heq
        exact hns (heq ▸ h1 a ha)
      · intro e he
        rcases List.mem_append.1 he with he | he
        · exact h3 e he
        · rw [List.mem_singleton.1 he]; exact hsc
    by_cases hsub : pyContains m.1 "." = true
    · by_cases hp : parentOf m.1 ∈ seen
      · simpa [hsub, hp] using hstep top seen h1 h2 h3
      · by_cases hs4 : 4 ≤ m.2.2
        · obtain ⟨g1, g2, g3⟩ := hkeepinv hp (fun _ => hs4)
          simpa [hsub, hp, hs4] using
            hstep (top ++ [m]) (seen ++ [parentOf m.1]) g1 g2 g3
        · simpa [hsub, hp, hs4] using hstep top seen h1 h2 h3
    · by_cases hp : parentOf m.1 ∈ seen
      · simpa [hsub, hp] using hstep top seen h1 h2 h3
      · obtain ⟨g1, g2, g3⟩ := hkeepinv hp (fun hc => absurd hc (by simp [hsub]))
        simpa [hsub, hp] using
          hstep (top ++ [m]) (seen ++ [parentOf m.1]) g1 g2 g3

/-! ## C4 — the technique filter: cap, sub-technique rule, distinct parents -/

/-- C4: the filtered suggested-technique list has at most 10 entries; a
sub-technique (identifier containing the `"."` parent delimiter) is
retained only with score at least 4.0; and no two retained entries share a
parent identifier (in particular a sub-technique is never retained once a
technique of the same parent is). -/
theorem technique_filter_cap (ms : List (String × String × Nat)) :
    (filterTechniques ms).length ≤ 10 ∧
    (∀ e ∈ filterTechniques ms, pyContains e.1 "." = true → 4 ≤ e.2.2) ∧
    (filterTechniques ms).Pairwise
      (fun a b => parentOf a.1 ≠ parentOf b.1) := by
  obtain ⟨hpw, hsc⟩ :=
    filterTechniquesGo_invariant ms [] [] (by simp) (by simp) (by simp)
  exact ⟨filterTechniquesGo_length_le ms [] [] (by norm_num), hsc, hpw⟩

/-- Witness for C4: the retained sub-technique `FT001.001` indeed has
score at least 4. -/
theorem technique_filter_cap_witness : (4 : Nat) ≤ 5 :=
  (technique_filter_cap [("FT001.001", "Sub", 5), ("FT002", "Par", 3)]).2.1
    ("FT001.001", "Sub", 5) (by decide) (by decide)

/-! ## C10 — the filtered list is a subsequence of the ranked list -/

/-- C10: the filtered suggested-technique list is a subsequence of the
keyword-matching signal's score-descending ranked list, so its scores are
non-increasing from first to last entry. -/
theorem filtered_ranked_subsequence (fraud_types : List String)
    (techniques : List Technique) :
    (filterTechniques
        (map_fraud_types_to_techniques fraud_types techniques)).Sublist
      (map_fraud_types_to_techniques fraud_types techniques) ∧
    (filterTechniques
        (map_fraud_types_to_techniques fraud_types techniques)).Pairwise
      (fun a b => b.2.2 ≤ a.2.2) := by
  have hsub : ∀ (l : List (String × String × Nat)), (filterTechniques l).Sublist l := by
    intro l
    obtain ⟨l', heq, hs⟩ := filterTechniquesGo_append_sublist l [] []
    simpa [filterTechniques, heq] using hs
  have hsortedMS : ∀ (l : List (String × String × Nat)),
      (l.mergeSort (fun a b => decide (b.2.2 ≤ a.2.2))).Pairwise
        (fun a b => b.2.2 ≤ a.2.2) := by
    intro l
    have h := @List.sorted_mergeSort (String × String × Nat)
      (fun a b => decide (b.2.2 ≤ a.2.2))
      (fun a b c hab hbc => by simp_all; omega)
      (fun a b => by simpa using Nat.le_total b.2.2 a.2.2) l
    exact h.imp (fun hd => by simpa using hd)
  have hsorted : (map_fraud_types_to_techniques fraud_types techniques).Pairwise
      (fun a b => b.2.2 ≤ a.2.2) := by
    simp only [map_fraud_types_to_techniques]
    split
    · exact List.Pairwise.nil
    · exact hsortedMS _
  exact ⟨hsub _, List.Pairwise.sublist (hsub _) hsorted⟩

/-! ## Helper lemmas for the pipe-joined cell -/

/-- The accumulator of `String.intercalate.go` factors out on the left. -/
theorem intercalate_go_append :
    ∀ (bs : List String) (a b : String),
      String.intercalate.go (a ++ b) "|" bs = a ++ String.intercalate.go b "|" bs := by
  intro bs
  induction bs with
  | nil => intro a b; rfl
  | cons c cs ih =>
    intro a b
    show String.intercalate.go (a ++ b ++ "|" ++ c) "|" cs
      = a ++ String.intercalate.go (b ++ "|" ++ c) "|" cs
    rw [String.append_assoc, String.append_assoc, ← String.append_assoc b,
      ih a (b ++ "|" ++ c)]

/-- Recurrence for `"|".join` on a list of two or more strings. -/
theorem intercalate_pipe_cons (a b : String) (bs : List String) :
    String.intercalate "|" (a :: b :: bs)
      = a ++ "|" ++ String.intercalate "|" (b :: bs) := by
  show String.intercalate.go (a ++ "|" ++ b) "|" bs
    = a ++ "|" ++ String.intercalate.go b "|" bs
  rw [String.append_assoc, intercalate_go_append bs a ("|" ++ b),
    intercalate_go_append bs "|" b, ← String.append_assoc]

/-- Splitting a pipe-free char list gives back the single piece. -/
theorem splitOnChar_no_sep :
    ∀ (cs : List Char), '|' ∉ cs → splitOnChar '|' cs = [cs] := by
  intro cs
  induction cs with
  | nil => intro _; rfl
  | cons c t ih =>
    intro h
    have hc : ¬ c = '|' := fun hc => h (hc ▸ List.mem_cons_self c t)
    have ht := ih (fun hm => h (List.mem_cons_of_mem c hm))
    simp [splitOnChar, ht, hc]

/-- `splitOnChar` always returns at least one piece. -/
theorem splitOnChar_ne_nil (sep : Char) :
    ∀ (cs : List Char), splitOnChar sep cs ≠ [] := by
  intro cs
  cases cs with
  | nil => simp [splitOnChar]
  | cons x xs =>
    simp only [splitOnChar]
    cases h : splitOnChar sep xs with
    | nil => simp
    | cons y ys => by_cases hx : x = sep <;> simp [hx]

/-- Splitting peels off a pipe-free piece before a separator. -/
theorem splitOnChar_sep :
    ∀ (cs rest : List Char), '|' ∉ cs →
      splitOnChar '|' (cs ++ '|' :: rest) = cs :: splitOnChar '|' rest := by
  intro cs
  induction cs with
  | nil =>
    intro rest _
    simp only [List.nil_append, splitOnChar]
    cases h : splitOnChar '|' rest with
    | nil => exact absurd h (splitOnChar_ne_nil '|' rest)
    | cons y ys => simp
  | cons c t ih =>
    intro rest h
    have hc : ¬ c = '|' := fun hc => h (hc ▸ List.mem_cons_self c t)
    have ht := ih rest (fun hm => h (List.mem_cons_of_mem c hm))
    simp [splitOnChar, ht, hc]

/-- Re-splitting a pipe-joined list of pipe-free, non-empty-list strings on
`"|"` reconstructs the list. -/
theorem pySplitPipe_intercalate :
    ∀ (ids : List String), ids ≠ [] → (∀ t ∈ ids, '|' ∉ t.data) →
      pySplitPipe (String.intercalate "|" ids) = ids := by
  intro ids
  induction ids with
  | nil => intro h _; exact absurd rfl h
  | cons a bs ih =>
    intro _ hfree
    cases bs with
    | nil =>
      have : String.intercalate "|" [a] = a := rfl
      simp only [this, pySplitPipe,
        splitOnChar_no_sep a.data (hfree a (List.mem_cons_self a [])), List.map]
    | cons b cs =>
      have hdata : (String.intercalate "|" (a :: b :: cs)).data
          = a.data ++ '|' :: (String.intercalate "|" (b :: cs)).data := by
        rw [intercalate_pipe_cons, String.data_append, String.data_append]
        simp
      have hrec := ih (by simp) (fun t ht => hfree t (List.mem_cons_of_mem a ht))
      simp only [pySplitPipe, hdata,
        splitOnChar_sep a.data _ (hfree a (List.mem_cons_self a _)), List.map]
      refine congrArg₂ (· :: ·) rfl ?_
      simpa [pySplitPipe] using hrec

/-! ## C7 — CSV structure and the pipe-joined `mapped_tp_ids` cell -/

/-- C7: serializing `N` alerts yields exactly one header row in the fixed
column order followed by the `N` data rows (the empty list yields only the
header row); each data row's `mapped_tp_ids` cell is the pipe-joined list,
the empty list serializes to the empty string, and re-splitting a non-empty
cell of pipe-free IDs on `"|"` reconstructs the original list. -/
theorem csv_header_rows_roundtrip (alerts : List RegulatoryAlert) :
    (write_csv alerts).length = alerts.length + 1 ∧
    (write_csv alerts).head? = some CSV_COLUMNS ∧
    CSV_COLUMNS = ["source", "alert_id", "title", "date", "category",
      "mapped_tp_ids", "url", "severity", "summary"] ∧
    write_csv [] = [CSV_COLUMNS] ∧
    (write_csv alerts).drop 1 = alerts.map RegulatoryAlert.to_csv_row ∧
    (∀ a : RegulatoryAlert,
      a.to_csv_row.getD 5 "" = String.intercalate "|" a.mapped_tp_ids) ∧
    String.intercalate "|" ([] : List String) = "" ∧
    (∀ ids : List String, ids ≠ [] → (∀ t ∈ ids, '|' ∉ t.data) →
      pySplitPipe (String.intercalate "|" ids) = ids) := by
  refine ⟨by simp [write_csv], rfl, rfl, rfl, rfl, fun a => rfl, rfl,
    pySplitPipe_intercalate⟩

/-- Witness for C7: a two-ID cell splits back to the two IDs. -/
theorem csv_header_rows_roundtrip_witness :
    pySplitPipe (String.intercalate "|" ["TP-0012", "TP-0034"])
      = ["TP-0012", "TP-0034"] :=
  (csv_header_rows_roundtrip []).2.2.2.2.2.2.2 ["TP-0012", "TP-0034"]
    (by decide) (by decide)

/-! ## Helper lemmas for the positional parse loops and title dedupe -/

/-- The parse loop is the filtered item list, enumerated from the current
output length and built into alerts. -/
theorem parseLoopGo_eq {α : Type} (keep : α → Bool) (mk : Nat → α → RegulatoryAlert) :
    ∀ (items : List α) (acc : List RegulatoryAlert),
      parseLoopGo keep mk acc items
        = acc ++ (List.enumFrom acc.length (items.filter keep)).map
            (fun p => mk p.1 p.2) := by
  intro items
  induction items with
  | nil => intro acc; simp [parseLoopGo]
  | cons x xs ih =>
    intro acc
    by_cases hk : keep x = true
    · simp only [parseLoopGo, hk, if_true]
      rw [ih (acc ++ [mk acc.length x])]
      simp [List.filter_cons, hk, List.enumFrom]
    · simp only [parseLoopGo, hk, if_false]
      rw [ih acc]
      simp [List.filter_cons, hk]

/-- `parseLoop` over the enumerated filtered items. -/
theorem parseLoop_eq {α : Type} (keep : α → Bool) (mk : Nat → α → RegulatoryAlert)
    (items : List α) :
    parseLoop keep mk items
      = ((items.filter keep).enum).map (fun p => mk p.1 p.2) := by
  simpa using parseLoopGo_eq keep mk items []

/-- The dedupe loop appends, to the output so far, the keep-first dedupe of
the remaining alerts whose titles are not yet seen. -/
theorem dedupeByTitleGo_eq :
    ∀ (l : List RegulatoryAlert) (seen : List String)
      (unique : List RegulatoryAlert),
      dedupeByTitleGo seen unique l
        = unique ++ keepFirstByTitle (l.filter fun b => !(seen.contains b.title)) := by
  intro l
  induction l with
  | nil => intro seen unique; simp [dedupeByTitleGo, keepFirstByTitle]
  | cons x xs ih =>
    intro seen unique
    by_cases hx : seen.contains x.title = true
    · simp only [dedupeByTitleGo, hx, if_true]
      rw [ih]
      have hx' : x.title ∈ seen := by simpa using hx
      congr 2
      rw [List.filter_cons]
      simp [hx']
    · simp only [dedupeByTitleGo, hx, if_false]
      rw [ih (seen ++ [x.title]) (unique ++ [x])]
      have hx' : x.title ∉ seen := by simpa using hx
      have hcons : (x :: xs).filter (fun b => !(seen.contains b.title))
          = x :: xs.filter (fun b => !(seen.contains b.title)) := by
        rw [List.filter_cons]
        simp [hx']
      rw [hcons, keepFirstByTitle, List.filter_filter, List.append_assoc]
      have hpt : xs.filter (fun b =>
            !(b.title == x.title) && !(seen.contains b.title))
          = xs.filter (fun b => !((seen ++ [x.title]).contains b.title)) := by
        refine List.filter_congr ?_
        intro b _
        by_cases h1 : b.title ∈ seen <;> by_cases h2 : b.title = x.title <;>
          simp [h1, h2]
      rw [hpt]
      rfl

/-- `dedupeByTitle` is keep-first-by-title. -/
theorem dedupeByTitle_eq_keepFirst (l : List RegulatoryAlert) :
    dedupeByTitle l = keepFirstByTitle l := by
  have h := dedupeByTitleGo_eq l [] []
  simpa [dedupeByTitle] using h

/-- Keep-first-by-title is a subsequence: records keep their relative order
and are otherwise untouched (in particular `alert_id`s are not renumbered). -/
theorem keepFirstByTitle_sublist :
    ∀ (l : List RegulatoryAlert), (keepFirstByTitle l).Sublist l := by
  intro l
  induction l using keepFirstByTitle.induct with
  | case1 => simp [keepFirstByTitle]
  | case2 x xs ih =>
    rw [keepFirstByTitle]
    exact List.Sublist.cons₂ x (ih.trans (List.filter_sublist xs))

/-- The retained alerts have pairwise distinct titles. -/
theorem keepFirstByTitle_pairwise :
    ∀ (l : List RegulatoryAlert),
      (keepFirstByTitle l).Pairwise (fun a b => a.title ≠ b.title) := by
  intro l
  induction l using keepFirstByTitle.induct with
  | case1 => simp [keepFirstByTitle]
  | case2 x xs ih =>
    rw [keepFirstByTitle]
    refine List.Pairwise.cons ?_ ih
    intro b hb
    have hb' := (keepFirstByTitle_sublist _).subset hb
    have hne := List.of_mem_filter hb'
    simp only [Bool.not_eq_true', beq_eq_false_iff_ne, ne_eq] at hne
    exact fun h => hne h.symm

/-- Every title occurring in the input is represented in the output. -/
theorem keepFirstByTitle_titles :
    ∀ (l : List RegulatoryAlert) (a : RegulatoryAlert), a ∈ l →
      ∃ b ∈ keepFirstByTitle l, b.title = a.title := by
  intro l
  induction l using keepFirstByTitle.induct with
  | case1 => intro a ha; cases ha
  | case2 x xs ih =>
    intro a ha
    rw [keepFirstByTitle]
    rcases List.mem_cons.1 ha with rfl | ha
    · exact ⟨a, List.mem_cons_self _ _, rfl⟩
    · by_cases ht : a.title = x.title
      · exact ⟨x, List.mem_cons_self _ _, ht.symm⟩
      · obtain ⟨b, hb, hbt⟩ := ih a (List.mem_filter.2 ⟨ha, by simp [ht]⟩)
        exact ⟨b, List.mem_cons_of_mem _ hb, hbt⟩

/-- Projecting the kept alerts to `(title, alert_id)` commutes with
keep-first dedupe on the pairs. -/
theorem keepFirstByTitle_map_pairs :
    ∀ (l : List RegulatoryAlert),
      (keepFirstByTitle l).map (fun a => (a.title, a.alert_id))
        = keepFirstByKey (l.map fun a => (a.title, a.alert_id)) := by
  intro l
  induction l using keepFirstByTitle.induct with
  | case1 => simp [keepFirstByTitle, keepFirstByKey]
  | case2 x xs ih =>
    rw [keepFirstByTitle, List.map_cons, ih, List.map_cons, keepFirstByKey,
      List.filter_map]
    rfl

/-! ## C9 — title dedupe keeps the first, preserves order and ids -/

/-- C9: for the OCC and FBI IC3 scrapes, the title deduplication keeps, for
each distinct title, exactly the first alert with that title in extraction
order; the retained alerts appear in extraction order with their records
(hence their already-assigned position-based `alert_id`s) untouched, so the
output ids can be non-contiguous — as the concrete duplicate-title run
shows, which keeps `occ-0000` and `occ-0002` but not `occ-0001`. -/
theorem scrape_dedupe_keeps_first :
    (∀ (cfg : List (String × List String)) (xs : List OccAnchor),
      occParse cfg (.page xs)
        = keepFirstByTitle (parseLoop occKeep (occMk cfg) xs)) ∧
    (∀ (cfg : List (String × List String)) (xs : List FbiAnchor),
      fbiParse cfg (.page xs)
        = keepFirstByTitle (parseLoop fbiKeep (fbiMk cfg) xs)) ∧
    (∀ l, (keepFirstByTitle l).Sublist l) ∧
    (∀ l, (keepFirstByTitle l).Pairwise (fun a b => a.title ≠ b.title)) ∧
    (∀ l, ∀ a ∈ l, ∃ b ∈ keepFirstByTitle l, b.title = a.title) ∧
    ((occParse [] (.page
        [⟨"OCC Bulletin 2024-01 Alpha", "/bulletin/1", "<a>", ""⟩,
         ⟨"OCC Bulletin 2024-01 Alpha", "/bulletin/2", "<a>", ""⟩,
         ⟨"OCC Bulletin 2024-02 Beta", "/bulletin/3", "<a>", ""⟩])).map
      (fun a => a.alert_id) = ["occ-0000", "occ-0002"]) := by
  refine ⟨?_, ?_, keepFirstByTitle_sublist, keepFirstByTitle_pairwise,
    keepFirstByTitle_titles, ?_⟩
  · intro cfg xs; exact dedupeByTitle_eq_keepFirst _
  · intro cfg xs; exact dedupeByTitle_eq_keepFirst _
  · decide

/-- Witness for C9: the single alert's title is represented after dedupe. -/
theorem scrape_dedupe_keeps_first_witness :
    ∃ b ∈ keepFirstByTitle
        [⟨"occ", "occ-0000", "T", .str "", "Bulletin", [], "", "low", ""⟩],
      b.title = (⟨"occ", "occ-0000", "T", .str "", "Bulletin", [], "", "low", ""⟩ :
        RegulatoryAlert).title :=
  scrape_dedupe_keeps_first.2.2.2.2.1 _ _ (by decide)

/-! ## C8 — deterministic alert-id generation -/

/-- C8: parse is a pure function of its raw input (and static config), so
parsing the same input twice yields identical `alert_id`s; moreover the ids
are pinned to an explicit function of the input's stable fields alone —
upstream keys for CFPB (`cfpb-<complaint_id>`) and OFAC (`ofac-<uid>`),
retained extraction positions for SEC/FinCEN/OCC/FBI — with no dependence
on the category mapping, per-run randomness, or local time. -/
theorem alert_id_deterministic :
    (∀ (cfg : List (String × List String)) (hits : List CfpbHit),
      (cfpbParse cfg hits).map (fun a => a.alert_id)
        = hits.map (fun h => "cfpb-" ++ h.complaint_id)) ∧
    (∀ (cfg : List (String × List String)) (x : OfacXml),
      ofacParse cfg (.parsed x)
          = .ok ((x.entries).map (ofacMk cfg x.publishDate)) ∧
      ((x.entries).map (ofacMk cfg x.publishDate)).map (fun a => a.alert_id)
        = x.entries.map (fun e => "ofac-" ++ e.uid)) ∧
    (∀ (cfg : List (String × List String)) (rows : List SecRow),
      (secParse cfg (.page rows)).map (fun a => a.alert_id)
        = (List.range (rows.filter secKeep).length).map
            (fun i => "sec-" ++ pad4 i)) ∧
    (∀ (cfg : List (String × List String)) (rows : List FincenRow),
      (fincenParse cfg (.page rows)).map (fun a => a.alert_id)
        = (List.range (rows.filter fincenKeep).length).map
            (fun i => "fincen-" ++ pad4 i)) ∧
    (∀ (cfg : List (String × List String)) (xs : List OccAnchor),
      (occParse cfg (.page xs)).map (fun a => a.alert_id)
        = (keepFirstByKey (((xs.filter occKeep).enum).map
            (fun p => (occTitle p.2, "occ-" ++ pad4 p.1)))).map Prod.snd) ∧
    (∀ (cfg : List (String × List String)) (xs : List FbiAnchor),
      (fbiParse cfg (.page xs)).map (fun a => a.alert_id)
        = (keepFirstByKey (((xs.filter fbiKeep).enum).map
            (fun p => (p.2.text, "ic3-" ++ pad4 p.1)))).map Prod.snd) := by
  have hids : ∀ (L : List RegulatoryAlert),
      L.map (fun a => a.alert_id)
        = (L.map (fun a => (a.title, a.alert_id))).map Prod.snd := by
    intro L; rw [List.map_map]; rfl
  refine ⟨?_, ?_, ?_, ?_, ?_, ?_⟩
  · intro cfg hits
    simp only [cfpbParse, List.map_map]
    rfl
  · intro cfg x
    refine ⟨rfl, ?_⟩
    simp only [List.map_map]
    rfl
  · intro cfg rows
    show (parseLoop secKeep (secMk cfg) rows).map (fun a => a.alert_id) = _
    rw [parseLoop_eq, List.map_map, ← List.enum_map_fst (rows.filter secKeep),
      List.map_map]
    rfl
  · intro cfg rows
    show (parseLoop fincenKeep (fincenMk cfg) rows).map (fun a => a.alert_id) = _
    rw [parseLoop_eq, List.map_map, ← List.enum_map_fst (rows.filter fincenKeep),
      List.map_map]
    rfl
  · intro cfg xs
    show (dedupeByTitle (parseLoop occKeep (occMk cfg) xs)).map
        (fun a => a.alert_id) = _
    rw [dedupeByTitle_eq_keepFirst, hids, keepFirstByTitle_map_pairs,
      parseLoop_eq, List.map_map]
    rfl
  · intro cfg xs
    show (dedupeByTitle (parseLoop fbiKeep (fbiMk cfg) xs)).map
        (fun a => a.alert_id) = _
    rw [dedupeByTitle_eq_keepFirst, hids, keepFirstByTitle_map_pairs,
      parseLoop_eq, List.map_map]
    rfl

/-! ## Helper lemmas for apply mode -/

/-- A line that does not start with the field name is no block head either. -/
theorem blockHeadMatch_false_of_not_prefix (l : String)
    (h : pyStartsWith l "ft3_tactics:" = false) :
    blockHeadMatch l = false := by
  simp only [pyStartsWith] at h
  simp [blockHeadMatch, dropPrefix?, h]

